import Mathlib

/-!
Verification of the Knugget YouTube backend quota ledger and subscription
reconciler.  The definitions below are a shallow embedding of
`src/services/token.ts` (TokenService) and `src/services/payment.ts`
(PaymentService).  Timestamps are modelled as `Int` epoch milliseconds;
nullable columns are `Option`; the database row of the one subscriber under
consideration is passed explicitly as a `UserRec` value.  Fallible service
methods return `Except AppError`; methods that both return data and write the
row return the updated row alongside their result.
-/

namespace Knugget

/-- The `UserPlan` Prisma enum.  The current migration defines FREE, LITE and
PRO; the PREMIUM variant of the earlier schema is kept because the payment
service still refers to it. -/
inductive UserPlan where
  | FREE
  | LITE
  | PRO
  | PREMIUM
deriving DecidableEq, Repr

/-- Per-plan token limits from `config.tokens` (`FREE_INPUT_TOKENS`,
`LITE_INPUT_TOKENS`, ... in `config/index.ts`). -/
structure PlanLimits where
  input : Int
  output : Int
deriving DecidableEq, Repr

/-- The `config.tokens` table of `config/index.ts`. -/
structure TokensConfig where
  free : PlanLimits
  lite : PlanLimits
  pro : PlanLimits
deriving DecidableEq, Repr

/-- The subscriber row of the `User` model (the fields the quota ledger and
the reconciler read and write). -/
structure UserRec where
  plan : UserPlan
  inputTokensRemaining : Int
  outputTokensRemaining : Int
  tokenResetDate : Option Int
  nextBillingDate : Option Int
  videosProcessedThisMonth : Int
  videoResetDate : Option Int
  subscriptionId : Option String
  subscriptionStatus : String
  cancelAtBillingDate : Bool
deriving DecidableEq, Repr

/-- `AppError` of `middleware/errorHandler.ts`: a message and an HTTP status
code. -/
structure AppError where
  message : String
  statusCode : Int
deriving DecidableEq, Repr

/-- `TokenUsage` of `token.ts`. -/
structure TokenUsage where
  inputTokens : Int
  outputTokens : Int
deriving DecidableEq, Repr

/-- `TokenStatus` of `token.ts`. -/
structure TokenStatus where
  inputTokensRemaining : Int
  outputTokensRemaining : Int
  tokenResetDate : Option Int
  hasEnoughTokens : Bool
  isTokensExhausted : Bool
deriving DecidableEq, Repr

/-- The `switch (plan)` of `TokenService.initializePlanTokens` and
`TokenService.resetTokens`: plan to (input, output) limits, the `default`
branch falling back to the FREE limits. -/
def planTokenLimits (cfg : TokensConfig) (plan : UserPlan) : PlanLimits :=
  match plan with
  | UserPlan.FREE => cfg.free
  | UserPlan.LITE => cfg.lite
  | UserPlan.PRO => cfg.pro
  | _ => cfg.free

/-- `TokenService.getNextMonthDate`.  The source advances the calendar month
(`new Date(year, month + 1, day)`); it is modelled as a fixed 30-day advance.
No theorem below depends on the exact value, only that the fallback exists. -/
def getNextMonthDate (now : Int) : Int :=
  now + 30 * 86400000

/-- `TokenService.consumeTokens` (token.ts lines 189-264): re-read the row,
fail with `AppError("Insufficient tokens", 402)` when either remaining
balance is below the requested usage, otherwise decrement both counters and
return the post-decrement status. -/
def consumeTokens (u : UserRec) (usage : TokenUsage) :
    Except AppError (TokenStatus × UserRec) :=
  if u.inputTokensRemaining < usage.inputTokens ∨
      u.outputTokensRemaining < usage.outputTokens then
    Except.error ⟨"Insufficient tokens", 402⟩
  else
    let u1 : UserRec :=
      { u with
        inputTokensRemaining := u.inputTokensRemaining - usage.inputTokens
        outputTokensRemaining := u.outputTokensRemaining - usage.outputTokens }
    let exhausted : Bool :=
      decide (u1.inputTokensRemaining ≤ 0) || decide (u1.outputTokensRemaining ≤ 0)
    Except.ok
      (⟨u1.inputTokensRemaining, u1.outputTokensRemaining, u1.tokenResetDate,
        !exhausted, exhausted⟩, u1)

/-- The subscriber row after one `consumeTokens` call: the decremented row on
success, the unchanged row when the call throws. -/
def consumeStep (u : UserRec) (usage : TokenUsage) : UserRec :=
  match consumeTokens u usage with
  | Except.ok (_, u1) => u1
  | Except.error _ => u

/-- The subscriber row after a finite sequence of sequential `consumeTokens`
calls. -/
def runConsumes (u : UserRec) (usages : List TokenUsage) : UserRec :=
  usages.foldl consumeStep u

/-- Claim C1: for every subscriber and every finite sequence of sequentially
executed consumeTokens calls (each either succeeding or failing),
inputTokensRemaining and outputTokensRemaining stay nonnegative after the
sequence; no consume operation drives either balance negative. -/
theorem consume_sequence_nonneg (u : UserRec) (usages : List TokenUsage)
    (hin : 0 ≤ u.inputTokensRemaining) (hout : 0 ≤ u.outputTokensRemaining) :
    0 ≤ (runConsumes u usages).inputTokensRemaining ∧
      0 ≤ (runConsumes u usages).outputTokensRemaining := by
  induction usages generalizing u with
  | nil => exact ⟨hin, hout⟩
  | cons usage rest ih =>
    have hstep : 0 ≤ (consumeStep u usage).inputTokensRemaining ∧
        0 ≤ (consumeStep u usage).outputTokensRemaining := by
      unfold consumeStep consumeTokens
      by_cases h : u.inputTokensRemaining < usage.inputTokens ∨
          u.outputTokensRemaining < usage.outputTokens
      · simp only [if_pos h]
        exact ⟨hin, hout⟩
      · have h2 := h
        push_neg at h2
        simp only [if_neg h]
        exact ⟨by omega, by omega⟩
    have := ih (consumeStep u usage) hstep.1 hstep.2
    simpa [runConsumes] using this

/-- Witness for C1: a subscriber at (100, 20) running three consume calls
(an oversized one that fails, one that succeeds, one that fails) ends
nonnegative. -/
theorem consume_sequence_nonneg_witness :
    (0 ≤ (100 : Int) ∧ 0 ≤ (20 : Int)) ∧
      (0 ≤ (runConsumes
          ⟨UserPlan.PRO, 100, 20, none, none, 0, none, none, "active", false⟩
          [⟨150, 5⟩, ⟨30, 10⟩, ⟨80, 20⟩]).inputTokensRemaining ∧
        0 ≤ (runConsumes
          ⟨UserPlan.PRO, 100, 20, none, none, 0, none, none, "active", false⟩
          [⟨150, 5⟩, ⟨30, 10⟩, ⟨80, 20⟩]).outputTokensRemaining) :=
  ⟨by decide,
    consume_sequence_nonneg
      ⟨UserPlan.PRO, 100, 20, none, none, 0, none, none, "active", false⟩
      [⟨150, 5⟩, ⟨30, 10⟩, ⟨80, 20⟩] (by decide) (by decide)⟩

/-- Claim C2: whenever either remaining balance is below the corresponding
requested amount, consumeTokens fails with the 402 "Insufficient tokens"
error and the subscriber row is unchanged (no partial decrement). -/
theorem consume_insufficient_fails_unchanged (u : UserRec) (usage : TokenUsage)
    (h : u.inputTokensRemaining < usage.inputTokens ∨
      u.outputTokensRemaining < usage.outputTokens) :
    consumeTokens u usage = Except.error ⟨"Insufficient tokens", 402⟩ ∧
      consumeStep u usage = u := by
  constructor
  · unfold consumeTokens
    simp only [if_pos h]
  · unfold consumeStep consumeTokens
    simp only [if_pos h]

/-- Witness for C2: consume of (input 150, output 5) against balances
(input 100, output 20) fails with the 402 error and changes nothing. -/
theorem consume_insufficient_fails_unchanged_witness :
    ((100 : Int) < 150 ∨ (20 : Int) < 5) ∧
      (consumeTokens
          ⟨UserPlan.PRO, 100, 20, none, none, 0, none, none, "active", false⟩
          ⟨150, 5⟩ = Except.error ⟨"Insufficient tokens", 402⟩ ∧
        consumeStep
          ⟨UserPlan.PRO, 100, 20, none, none, 0, none, none, "active", false⟩
          ⟨150, 5⟩ =
          ⟨UserPlan.PRO, 100, 20, none, none, 0, none, none, "active", false⟩) :=
  ⟨by decide,
    consume_insufficient_fails_unchanged
      ⟨UserPlan.PRO, 100, 20, none, none, 0, none, none, "active", false⟩
      ⟨150, 5⟩ (by decide)⟩

/-!
Concurrency model for `consumeTokens`.  The source performs two separate
store operations: `prisma.user.findUnique` (a snapshot read) and
`prisma.user.update` with `{ decrement: ... }` (an atomic but UNCONDITIONAL
row decrement).  The sufficiency guard runs in application code on the
snapshot.  A concurrent execution of two calls is an interleaving of these
atomic store operations.
-/

/-- The write phase of one `consumeTokens` call: the guard is evaluated on
the snapshot the call read earlier, and when it passes, the store row is
decremented unconditionally (the Prisma `decrement` carries no sufficiency
condition).  Returns whether the call succeeded and the new store row. -/
def consumeWritePhase (store snapshot : UserRec) (usage : TokenUsage) :
    Bool × UserRec :=
  if snapshot.inputTokensRemaining < usage.inputTokens ∨
      snapshot.outputTokensRemaining < usage.outputTokens then
    (false, store)
  else
    (true,
      { store with
        inputTokensRemaining := store.inputTokensRemaining - usage.inputTokens
        outputTokensRemaining := store.outputTokensRemaining - usage.outputTokens })

/-- Two concurrent `consumeTokens` calls A and B against the same row,
interleaved as: read A, read B, write A, write B.  Both snapshots see the
initial row; each write phase applies to the then-current row.  Returns
(A succeeded, B succeeded, final row). -/
def twoConcurrentConsumes (s0 : UserRec) (usageA usageB : TokenUsage) :
    Bool × Bool × UserRec :=
  let snapshotA := s0
  let snapshotB := s0
  let rA := consumeWritePhase s0 snapshotA usageA
  let rB := consumeWritePhase rA.2 snapshotB usageB
  (rA.1, rB.1, rB.2)

/-- Claim C3 (code bug): two concurrent consume(50,10) calls against
remaining balances (60,10), interleaved read/read/write/write, BOTH succeed
and the final balances are (-40,-10) — the guard is checked on a stale
snapshot and the store decrement is unconditional, so the store does not
serialize the conditional decrement as the claim requires (the claim says at
most one succeeds and the final balances are (10,0)). -/
theorem concurrent_consume_both_succeed :
    twoConcurrentConsumes
        ⟨UserPlan.PRO, 60, 10, none, none, 0, none, none, "active", false⟩
        ⟨50, 10⟩ ⟨50, 10⟩ =
      (true, true,
        ⟨UserPlan.PRO, -40, -10, none, none, 0, none, none, "active", false⟩) := by
  decide

/-- `TokenService.resetTokens` (token.ts lines 269-334) applied to the row:
re-read the plan, set both balances to the full allocation for that plan,
and advance `tokenResetDate`/`videoResetDate` to `nextBillingDate` when
present, else to one month from now. -/
def resetTokens (cfg : TokensConfig) (u : UserRec) (now : Int) : UserRec :=
  let lim := planTokenLimits cfg u.plan
  let nextResetDate := u.nextBillingDate.getD (getNextMonthDate now)
  { u with
    inputTokensRemaining := lim.input
    outputTokensRemaining := lim.output
    tokenResetDate := some nextResetDate
    videosProcessedThisMonth := 0
    videoResetDate := some nextResetDate }

/-- The lazy-reset condition of `checkTokenAvailability` and
`getTokenStatus`: `user.tokenResetDate && user.tokenResetDate <= now`. -/
def tokenResetDue (u : UserRec) (now : Int) : Bool :=
  match u.tokenResetDate with
  | some d => decide (d ≤ now)
  | none => false

/-- `TokenService.checkTokenAvailability` (token.ts lines 112-184): when the
reset date has passed, perform the implicit reset and re-read the row; then
report the remaining balances, `hasEnoughTokens` (both balances at least the
required amounts) and `isTokensExhausted` (either balance at or below
zero).  Returns the status and the (possibly reset) row. -/
def checkTokenAvailability (cfg : TokensConfig) (u : UserRec) (now : Int)
    (requiredInputTokens requiredOutputTokens : Int) :
    TokenStatus × UserRec :=
  let u1 := if tokenResetDue u now then resetTokens cfg u now else u
  let hasEnoughInputTokens : Bool :=
    decide (requiredInputTokens ≤ u1.inputTokensRemaining)
  let hasEnoughOutputTokens : Bool :=
    decide (requiredOutputTokens ≤ u1.outputTokensRemaining)
  let isTokensExhausted : Bool :=
    decide (u1.inputTokensRemaining ≤ 0) || decide (u1.outputTokensRemaining ≤ 0)
  (⟨u1.inputTokensRemaining, u1.outputTokensRemaining, u1.tokenResetDate,
    hasEnoughInputTokens && hasEnoughOutputTokens, isTokensExhausted⟩, u1)

/-- Claim C8: checkTokenAvailability first performs a reset exactly when
tokenResetDate is non-null and at or before now, judges sufficiency and
exhaustion against the refreshed balances, and mutates nothing beyond that
implicit lazy reset. -/
theorem checkTokenAvailability_spec (cfg : TokensConfig) (u : UserRec)
    (now requiredInputTokens requiredOutputTokens : Int) :
    ((checkTokenAvailability cfg u now requiredInputTokens
        requiredOutputTokens).2 =
      if tokenResetDue u now then resetTokens cfg u now else u) ∧
    ((checkTokenAvailability cfg u now requiredInputTokens
        requiredOutputTokens).1.hasEnoughTokens = true ↔
      (requiredInputTokens ≤
          (checkTokenAvailability cfg u now requiredInputTokens
            requiredOutputTokens).2.inputTokensRemaining ∧
        requiredOutputTokens ≤
          (checkTokenAvailability cfg u now requiredInputTokens
            requiredOutputTokens).2.outputTokensRemaining)) ∧
    ((checkTokenAvailability cfg u now requiredInputTokens
        requiredOutputTokens).1.isTokensExhausted = true ↔
      ((checkTokenAvailability cfg u now requiredInputTokens
          requiredOutputTokens).2.inputTokensRemaining ≤ 0 ∨
        (checkTokenAvailability cfg u now requiredInputTokens
          requiredOutputTokens).2.outputTokensRemaining ≤ 0)) := by
  refine ⟨rfl, ?_, ?_⟩ <;> simp [checkTokenAvailability]

/-- The `TokenStatus` built by `getTokenStatus` once no reset is due:
`hasEnoughTokens` is the negation of `isTokensExhausted` there. -/
def getStatusView (u : UserRec) : TokenStatus :=
  let isTokensExhausted : Bool :=
    decide (u.inputTokensRemaining ≤ 0) || decide (u.outputTokensRemaining ≤ 0)
  ⟨u.inputTokensRemaining, u.outputTokensRemaining, u.tokenResetDate,
    !isTokensExhausted, isTokensExhausted⟩

/-- `TokenService.getTokenStatus` (token.ts lines 339-386): when the reset
date has passed, reset and recurse; otherwise report the status.  The
source recursion has no bound, so it is modelled with explicit fuel;
`none` means the recursion has not produced an answer within `fuel` calls. -/
def getTokenStatusFuel (cfg : TokensConfig) :
    Nat → UserRec → Int → Option (TokenStatus × UserRec)
  | 0, _, _ => none
  | fuel + 1, u, now =>
    if tokenResetDue u now then
      getTokenStatusFuel cfg fuel (resetTokens cfg u now) now
    else
      some (getStatusView u, u)

/-- Helper for C9: a row whose nextBillingDate is a fixed past instant and
whose reset is due keeps that shape after every reset, so the recursion of
getTokenStatus never answers, with any amount of fuel. -/
theorem getTokenStatusFuel_stuck (cfg : TokensConfig) (now b : Int)
    (hb : b ≤ now) :
    ∀ fuel : Nat, ∀ u : UserRec, ∀ d : Int,
      u.nextBillingDate = some b → u.tokenResetDate = some d → d ≤ now →
      getTokenStatusFuel cfg fuel u now = none := by
  intro fuel
  induction fuel with
  | zero => intro u d _ _ _; rfl
  | succ n ih =>
    intro u d hnb hrd hd
    have hdue : tokenResetDue u now = true := by
      simp [tokenResetDue, hrd, hd]
    have hrec : getTokenStatusFuel cfg (n + 1) u now =
        getTokenStatusFuel cfg n (resetTokens cfg u now) now := by
      simp [getTokenStatusFuel, hdue]
    rw [hrec]
    exact ih (resetTokens cfg u now) b
      (by simp [resetTokens, hnb]) (by simp [resetTokens, hnb]) hb

/-- Claim C9 (code bug): getTokenStatus does NOT terminate for every
subscriber state.  For a subscriber whose tokenResetDate has passed and
whose nextBillingDate is a non-null instant also in the past, resetTokens
re-installs that past date as the new tokenResetDate, so the
lazy-reset-then-recurse loop never reaches a state whose reset date is null
or in the future: no amount of fuel yields an answer. -/
theorem getTokenStatus_diverges (cfg : TokensConfig) (fuel : Nat) :
    getTokenStatusFuel cfg fuel
      ⟨UserPlan.PRO, 0, 0, some 50, some 50, 0, some 50, some "sub_1",
        "active", false⟩ 100 = none :=
  getTokenStatusFuel_stuck cfg 100 50 (by decide) fuel
    ⟨UserPlan.PRO, 0, 0, some 50, some 50, 0, some 50, some "sub_1",
      "active", false⟩ 50 rfl rfl (by decide)

/-!
Subscription reconciler, from `PaymentService.syncSubscriptionFromDodo`
(payment.ts).  The classification of the provider response into plan and
status is extracted as a pure function; the database write and the
conditional token allocation follow it.
-/

/-- The DodoPayments subscription object as read by
`syncSubscriptionFromDodo`: `status`, `cancel_at_next_billing_date`,
`next_billing_date` (absent modelled as `none`) and `product_id`. -/
structure DodoSubscription where
  status : String
  cancel_at_next_billing_date : Bool
  next_billing_date : Option Int
  product_id : String
deriving DecidableEq, Repr

/-- The outcome of the scenario classification inside
`syncSubscriptionFromDodo`: the premium flag, the persisted status string,
the persisted plan, and the list of `logger.warn` messages the function
emits while classifying (the source function contains no `logger.warn`
call, so every branch emits none). -/
structure ClassifyResult where
  isPremium : Bool
  dbStatus : String
  dbPlan : UserPlan
  warnings : List String
deriving DecidableEq, Repr

/-- The four-scenario classification of `syncSubscriptionFromDodo`
(payment.ts lines 553-588), in source order: active and not cancelling;
active and cancelling (premium only while `next_billing_date > now`);
cancelled; any other status (status string mirrored, empty string falling
back to "free").  An absent `next_billing_date` compares as not in the
future (`new Date(undefined)` is an invalid date in the source). -/
def classifyDodo (sub : DodoSubscription) (now : Int) : ClassifyResult :=
  if sub.status = "active" ∧ sub.cancel_at_next_billing_date = false then
    ⟨true, "active", UserPlan.PREMIUM, []⟩
  else if sub.status = "active" ∧ sub.cancel_at_next_billing_date = true then
    let isPremium : Bool :=
      match sub.next_billing_date with
      | some d => decide (now < d)
      | none => false
    ⟨isPremium, if isPremium then "cancelling" else "expired",
      if isPremium then UserPlan.PREMIUM else UserPlan.FREE, []⟩
  else if sub.status = "cancelled" then
    ⟨false, "expired", UserPlan.FREE, []⟩
  else
    ⟨false, if sub.status = "" then "free" else sub.status, UserPlan.FREE, []⟩

/-- `TokenService.initializePlanTokens` (token.ts lines 25-96) applied to
the row: look up the limits for the given plan, set both balances to them,
and set `tokenResetDate` (and the video counters) from the provided billing
cycle end, else the row's `nextBillingDate`, else one month from now. -/
def initializePlanTokens (cfg : TokensConfig) (plan : UserPlan)
    (billingCycleEndDate : Option Int) (u : UserRec) (now : Int) : UserRec :=
  let lim := planTokenLimits cfg plan
  let tokenResetDate :=
    (billingCycleEndDate.or u.nextBillingDate).getD (getNextMonthDate now)
  { u with
    inputTokensRemaining := lim.input
    outputTokensRemaining := lim.output
    tokenResetDate := some tokenResetDate
    videosProcessedThisMonth := 0
    videoResetDate := some tokenResetDate }

/-- `PaymentService.syncSubscriptionFromDodo` (payment.ts lines 528-635)
after a successful provider fetch: classify the response, persist
`subscriptionId`, `plan`, `subscriptionStatus`, `nextBillingDate` and
`cancelAtBillingDate`, and, exactly when the persisted plan is the paid
tier and the subscriber is premium, initialize the paid-tier tokens with
the provider billing date as the cycle end
(`tokenService.initializePremiumTokens` delegates to
`initializePlanTokens` with plan PRO in the current token service).
Returns the updated row and whether the allocation was invoked. -/
def syncSubscriptionFromDodo (cfg : TokensConfig) (sub : DodoSubscription)
    (subscriptionId : String) (u : UserRec) (now : Int) : UserRec × Bool :=
  let c := classifyDodo sub now
  let u1 : UserRec :=
    { u with
      subscriptionId := some subscriptionId
      plan := c.dbPlan
      subscriptionStatus := c.dbStatus
      nextBillingDate := sub.next_billing_date
      cancelAtBillingDate := sub.cancel_at_next_billing_date }
  if c.dbPlan = UserPlan.PREMIUM ∧ c.isPremium = true then
    (initializePlanTokens cfg UserPlan.PRO sub.next_billing_date u1 now, true)
  else
    (u1, false)

/-- Claim C4: for a provider response with status "active" and the
cancel-at-next-billing flag set, sync persists status "cancelling" and
keeps the paid plan when the next billing date is strictly in the future,
and persists status "expired" with plan FREE otherwise. -/
theorem sync_cancelling_grace (cfg : TokensConfig) (sub : DodoSubscription)
    (subscriptionId : String) (u : UserRec) (now nb : Int)
    (hact : sub.status = "active")
    (hcan : sub.cancel_at_next_billing_date = true)
    (hnb : sub.next_billing_date = some nb) :
    (syncSubscriptionFromDodo cfg sub subscriptionId u now).1.subscriptionStatus =
        (if now < nb then "cancelling" else "expired") ∧
      (syncSubscriptionFromDodo cfg sub subscriptionId u now).1.plan =
        (if now < nb then UserPlan.PREMIUM else UserPlan.FREE) := by
  by_cases hfut : now < nb <;>
    simp [syncSubscriptionFromDodo, classifyDodo, initializePlanTokens, hact,
      hcan, hnb, hfut]

/-- Witness for C4: status "active", cancelling, next billing at 200 with
now 100 (one strictly-future case). -/
theorem sync_cancelling_grace_witness :
    ((⟨"active", true, some 200, "pid_lite"⟩ : DodoSubscription).status =
        "active" ∧
      (⟨"active", true, some 200, "pid_lite"⟩ :
          DodoSubscription).cancel_at_next_billing_date = true ∧
      (⟨"active", true, some 200, "pid_lite"⟩ :
          DodoSubscription).next_billing_date = some 200) ∧
    ((syncSubscriptionFromDodo ⟨⟨150000, 10000⟩, ⟨3000000, 200000⟩,
          ⟨9000000, 600000⟩⟩ ⟨"active", true, some 200, "pid_lite"⟩ "sub_1"
          ⟨UserPlan.PREMIUM, 10, 5, some 200, some 200, 0, some 200,
            some "sub_1", "active", false⟩ 100).1.subscriptionStatus =
        (if (100 : Int) < 200 then "cancelling" else "expired") ∧
      (syncSubscriptionFromDodo ⟨⟨150000, 10000⟩, ⟨3000000, 200000⟩,
          ⟨9000000, 600000⟩⟩ ⟨"active", true, some 200, "pid_lite"⟩ "sub_1"
          ⟨UserPlan.PREMIUM, 10, 5, some 200, some 200, 0, some 200,
            some "sub_1", "active", false⟩ 100).1.plan =
        (if (100 : Int) < 200 then UserPlan.PREMIUM else UserPlan.FREE)) :=
  ⟨⟨rfl, rfl, rfl⟩,
    sync_cancelling_grace ⟨⟨150000, 10000⟩, ⟨3000000, 200000⟩,
      ⟨9000000, 600000⟩⟩ ⟨"active", true, some 200, "pid_lite"⟩ "sub_1"
      ⟨UserPlan.PREMIUM, 10, 5, some 200, some 200, 0, some 200,
        some "sub_1", "active", false⟩ 100 200 rfl rfl rfl⟩

/-- Counterexample for C5: on an active, not-cancelling provider response
whose product id is unrecognized, the classification emits NO warning (the
claim says a warning is logged), and the result coincides with the
classification of the same response carrying a recognized product id — the
product id is never consulted; the plan is the fixed paid tier PREMIUM
rather than a tier mapped from the product id. -/
theorem sync_active_ignores_product_id :
    (classifyDodo ⟨"active", false, some 200, "totally_unknown_product"⟩
        100).warnings = [] ∧
      classifyDodo ⟨"active", false, some 200, "totally_unknown_product"⟩ 100 =
        classifyDodo ⟨"active", false, some 200, "pid_lite"⟩ 100 ∧
      (classifyDodo ⟨"active", false, some 200, "totally_unknown_product"⟩
          100).dbPlan = UserPlan.PREMIUM := by
  decide

/-- Claim C5 as amended: for every provider response with status "active"
and the cancel flag not set, sync sets the plan to the single paid tier
(PREMIUM) and internal status "active"; the provider product id is not
consulted (the classification is unchanged under any product id) and no
warning is logged. -/
theorem sync_active_sets_premium (sub : DodoSubscription) (now : Int)
    (hact : sub.status = "active")
    (hcan : sub.cancel_at_next_billing_date = false) :
    (classifyDodo sub now).dbPlan = UserPlan.PREMIUM ∧
      (classifyDodo sub now).dbStatus = "active" ∧
      (classifyDodo sub now).warnings = [] ∧
      ∀ pid : String,
        classifyDodo { sub with product_id := pid } now = classifyDodo sub now := by
  refine ⟨?_, ?_, ?_, ?_⟩ <;>
    simp [classifyDodo, hact, hcan]

/-- Witness for C5 (amended): a concrete active, not-cancelling response. -/
theorem sync_active_sets_premium_witness :
    ((⟨"active", false, some 200, "pid_x"⟩ : DodoSubscription).status =
        "active" ∧
      (⟨"active", false, some 200, "pid_x"⟩ :
          DodoSubscription).cancel_at_next_billing_date = false) ∧
    ((classifyDodo ⟨"active", false, some 200, "pid_x"⟩ 100).dbPlan =
        UserPlan.PREMIUM ∧
      (classifyDodo ⟨"active", false, some 200, "pid_x"⟩ 100).dbStatus =
        "active" ∧
      (classifyDodo ⟨"active", false, some 200, "pid_x"⟩ 100).warnings = [] ∧
      ∀ pid : String,
        classifyDodo
            { (⟨"active", false, some 200, "pid_x"⟩ : DodoSubscription) with
              product_id := pid } 100 =
          classifyDodo ⟨"active", false, some 200, "pid_x"⟩ 100) :=
  ⟨⟨rfl, rfl⟩,
    sync_active_sets_premium ⟨"active", false, some 200, "pid_x"⟩ 100 rfl rfl⟩

/-!
Webhook intake, from `PaymentService.handleWebhook` (payment.ts lines
938-985).  The process-local dedup set `processedWebhooks` is modelled as a
list of delivery ids; the deferred 24-hour cleanup removes ids only after
the dedup window, so within the window the set is exactly the state carried
here.  The provider fetch performed inside the awaited sync is abstracted
by a `FetchResult`: a successful response, a non-ok response (the source
sync catches it and returns null without throwing), or an exception
escaping the awaited call (the catch path of handleWebhook). -/

/-- The fields of the webhook event payload that handleWebhook reads:
`event.data?.subscription_id` and `event.data?.customer?.email`. -/
structure WebhookEvent where
  eventType : String
  subscription_id : Option String
  customerEmail : Option String
deriving DecidableEq, Repr

/-- The mutable state handleWebhook touches: the process-local dedup set,
the subscriber row, and a counter of how many times the sync helper has
been invoked. -/
structure PaymentState where
  processedWebhooks : List String
  user : UserRec
  syncCalls : Nat
deriving DecidableEq, Repr

/-- Outcome of the provider fetch inside the awaited sync step. -/
inductive FetchResult where
  | ok (sub : DodoSubscription)
  | fail
  | raise
deriving DecidableEq, Repr

/-- `ServiceResponse` as handleWebhook produces it: `{success: true}` or
the catch-path `{success: false, error, statusCode: 500}`. -/
inductive SvcResult where
  | success
  | failure (error : String) (statusCode : Int)
deriving DecidableEq, Repr

/-- `PaymentService.handleWebhook`: skip ids already in the dedup set as a
no-op success; otherwise mark the id, return success without syncing when
the payload lacks a subscription id or a customer email, and otherwise
invoke the sync helper.  When the awaited step throws, the catch block
removes the id from the dedup set and reports a 500 failure. -/
def handleWebhook (cfg : TokensConfig) (fr : FetchResult)
    (event : WebhookEvent) (webhookId : String) (st : PaymentState)
    (now : Int) : SvcResult × PaymentState :=
  if webhookId ∈ st.processedWebhooks then
    (SvcResult.success, st)
  else
    let st1 : PaymentState :=
      { st with processedWebhooks := webhookId :: st.processedWebhooks }
    match event.subscription_id, event.customerEmail with
    | some subId, some _email =>
      match fr with
      | FetchResult.ok sub =>
        let r := syncSubscriptionFromDodo cfg sub subId st1.user now
        (SvcResult.success,
          { st1 with user := r.1, syncCalls := st1.syncCalls + 1 })
      | FetchResult.fail =>
        (SvcResult.success, { st1 with syncCalls := st1.syncCalls + 1 })
      | FetchResult.raise =>
        (SvcResult.failure "Unknown error" 500,
          { st1 with
            syncCalls := st1.syncCalls + 1
            processedWebhooks := st1.processedWebhooks.erase webhookId })
    | _, _ => (SvcResult.success, st1)

/-- Claim C6: sync invokes the token allocation exactly when it classifies
the subscriber as an entitled paid tier (the active and still-in-grace
cancelling cases), passing the provider billing date as the cycle end, so
that afterwards the balances equal the full configured limits of the
allocated tier; consequently a webhook for an active paid subscription
leaves the subscriber with the tier limits, as getTokenStatus then
reports. -/
theorem sync_allocates_when_entitled (cfg : TokensConfig)
    (sub : DodoSubscription) (subscriptionId : String) (u : UserRec)
    (now nb : Int) (event : WebhookEvent) (webhookId : String)
    (st : PaymentState) (hact : sub.status = "active")
    (hcan : sub.cancel_at_next_billing_date = false)
    (hnb : sub.next_billing_date = some nb) (hfut : now < nb)
    (hev : event.subscription_id = some subscriptionId)
    (hem : event.customerEmail = some "user@example.com")
    (hfresh : webhookId ∉ st.processedWebhooks) (hst : st.user = u) :
    (∀ sub2 : DodoSubscription, ∀ sid2 : String, ∀ u2 : UserRec,
      (syncSubscriptionFromDodo cfg sub2 sid2 u2 now).2 = true ↔
        ((classifyDodo sub2 now).dbPlan = UserPlan.PREMIUM ∧
          (classifyDodo sub2 now).isPremium = true)) ∧
    (syncSubscriptionFromDodo cfg sub subscriptionId u now).2 = true ∧
    (syncSubscriptionFromDodo cfg sub subscriptionId u
        now).1.inputTokensRemaining = cfg.pro.input ∧
    (syncSubscriptionFromDodo cfg sub subscriptionId u
        now).1.outputTokensRemaining = cfg.pro.output ∧
    (syncSubscriptionFromDodo cfg sub subscriptionId u now).1.tokenResetDate =
      some nb ∧
    (syncSubscriptionFromDodo cfg sub subscriptionId u now).1.plan =
      UserPlan.PREMIUM ∧
    (handleWebhook cfg (FetchResult.ok sub) event webhookId st now).2.user =
      (syncSubscriptionFromDodo cfg sub subscriptionId u now).1 ∧
    (getTokenStatusFuel cfg 1
        (syncSubscriptionFromDodo cfg sub subscriptionId u now).1 now).map
        (fun p => p.1.inputTokensRemaining) = some cfg.pro.input := by
  have hclassify : classifyDodo sub now =
      ⟨true, "active", UserPlan.PREMIUM, []⟩ := by
    simp [classifyDodo, hact, hcan]
  have hsync : syncSubscriptionFromDodo cfg sub subscriptionId u now =
      (initializePlanTokens cfg UserPlan.PRO sub.next_billing_date
        { u with
          subscriptionId := some subscriptionId
          plan := UserPlan.PREMIUM
          subscriptionStatus := "active"
          nextBillingDate := sub.next_billing_date
          cancelAtBillingDate := sub.cancel_at_next_billing_date } now,
        true) := by
    simp [syncSubscriptionFromDodo, hclassify]
  refine ⟨?_, ?_, ?_, ?_, ?_, ?_, ?_, ?_⟩
  · intro sub2 sid2 u2
    by_cases h : (classifyDodo sub2 now).dbPlan = UserPlan.PREMIUM ∧
        (classifyDodo sub2 now).isPremium = true
    · simp [syncSubscriptionFromDodo, h]
    · simp only [syncSubscriptionFromDodo, if_neg h]
      simpa using h
  · simp [hsync]
  · simp [hsync, initializePlanTokens, planTokenLimits]
  · simp [hsync, initializePlanTokens, planTokenLimits]
  · simp [hsync, initializePlanTokens, hnb]
  · simp [hsync, initializePlanTokens]
  · simp [handleWebhook, hev, hem, hfresh, hst]
  · have hnotdue :
        tokenResetDue (syncSubscriptionFromDodo cfg sub subscriptionId u
          now).1 now = false := by
      have : (syncSubscriptionFromDodo cfg sub subscriptionId u
          now).1.tokenResetDate = some nb := by
        simp [hsync, initializePlanTokens, hnb]
      simp [tokenResetDue, this]
      omega
    have hval : (syncSubscriptionFromDodo cfg sub subscriptionId u
        now).1.inputTokensRemaining = cfg.pro.input := by
      simp [hsync, initializePlanTokens, planTokenLimits]
    simp [getTokenStatusFuel, hnotdue, getStatusView, hval]

/-- Witness for C6: the spec scenario.  A FREE subscriber holding the FREE
allocation (150000 input tokens) receives a webhook for an active paid
subscription whose tier is configured with inputLimit 3000000; afterwards
the row holds 3000000 input tokens, the reset date is the provider billing
date, and getTokenStatus reports 3000000. -/
theorem sync_allocates_when_entitled_witness :
    ((⟨"active", false, some 200, "pid_paid"⟩ : DodoSubscription).status =
        "active" ∧
      (⟨"active", false, some 200, "pid_paid"⟩ :
          DodoSubscription).cancel_at_next_billing_date = false ∧
      (⟨"active", false, some 200, "pid_paid"⟩ :
          DodoSubscription).next_billing_date = some 200 ∧
      (100 : Int) < 200 ∧
      (⟨"subscription.active", some "sub_9", some "user@example.com"⟩ :
          WebhookEvent).subscription_id = some "sub_9" ∧
      (⟨"subscription.active", some "sub_9", some "user@example.com"⟩ :
          WebhookEvent).customerEmail = some "user@example.com" ∧
      "wh_1" ∉ (⟨[],
          ⟨UserPlan.FREE, 150000, 10000, some 400, none, 0, some 400, none,
            "free", false⟩, 0⟩ : PaymentState).processedWebhooks ∧
      (⟨[],
          ⟨UserPlan.FREE, 150000, 10000, some 400, none, 0, some 400, none,
            "free", false⟩, 0⟩ : PaymentState).user =
        ⟨UserPlan.FREE, 150000, 10000, some 400, none, 0, some 400, none,
          "free", false⟩) ∧
    ((∀ sub2 : DodoSubscription, ∀ sid2 : String, ∀ u2 : UserRec,
      (syncSubscriptionFromDodo
          ⟨⟨150000, 10000⟩, ⟨3000000, 200000⟩, ⟨3000000, 200000⟩⟩ sub2 sid2
          u2 100).2 = true ↔
        ((classifyDodo sub2 100).dbPlan = UserPlan.PREMIUM ∧
          (classifyDodo sub2 100).isPremium = true)) ∧
    (syncSubscriptionFromDodo
        ⟨⟨150000, 10000⟩, ⟨3000000, 200000⟩, ⟨3000000, 200000⟩⟩
        ⟨"active", false, some 200, "pid_paid"⟩ "sub_9"
        ⟨UserPlan.FREE, 150000, 10000, some 400, none, 0, some 400, none,
          "free", false⟩ 100).2 = true ∧
    (syncSubscriptionFromDodo
        ⟨⟨150000, 10000⟩, ⟨3000000, 200000⟩, ⟨3000000, 200000⟩⟩
        ⟨"active", false, some 200, "pid_paid"⟩ "sub_9"
        ⟨UserPlan.FREE, 150000, 10000, some 400, none, 0, some 400, none,
          "free", false⟩ 100).1.inputTokensRemaining = 3000000 ∧
    (syncSubscriptionFromDodo
        ⟨⟨150000, 10000⟩, ⟨3000000, 200000⟩, ⟨3000000, 200000⟩⟩
        ⟨"active", false, some 200, "pid_paid"⟩ "sub_9"
        ⟨UserPlan.FREE, 150000, 10000, some 400, none, 0, some 400, none,
          "free", false⟩ 100).1.outputTokensRemaining = 200000 ∧
    (syncSubscriptionFromDodo
        ⟨⟨150000, 10000⟩, ⟨3000000, 200000⟩, ⟨3000000, 200000⟩⟩
        ⟨"active", false, some 200, "pid_paid"⟩ "sub_9"
        ⟨UserPlan.FREE, 150000, 10000, some 400, none, 0, some 400, none,
          "free", false⟩ 100).1.tokenResetDate = some 200 ∧
    (syncSubscriptionFromDodo
        ⟨⟨150000, 10000⟩, ⟨3000000, 200000⟩, ⟨3000000, 200000⟩⟩
        ⟨"active", false, some 200, "pid_paid"⟩ "sub_9"
        ⟨UserPlan.FREE, 150000, 10000, some 400, none, 0, some 400, none,
          "free", false⟩ 100).1.plan = UserPlan.PREMIUM ∧
    (handleWebhook ⟨⟨150000, 10000⟩, ⟨3000000, 200000⟩, ⟨3000000, 200000⟩⟩
        (FetchResult.ok ⟨"active", false, some 200, "pid_paid"⟩)
        ⟨"subscription.active", some "sub_9", some "user@example.com"⟩ "wh_1"
        ⟨[],
          ⟨UserPlan.FREE, 150000, 10000, some 400, none, 0, some 400, none,
            "free", false⟩, 0⟩ 100).2.user =
      (syncSubscriptionFromDodo
        ⟨⟨150000, 10000⟩, ⟨3000000, 200000⟩, ⟨3000000, 200000⟩⟩
        ⟨"active", false, some 200, "pid_paid"⟩ "sub_9"
        ⟨UserPlan.FREE, 150000, 10000, some 400, none, 0, some 400, none,
          "free", false⟩ 100).1 ∧
    (getTokenStatusFuel
        ⟨⟨150000, 10000⟩, ⟨3000000, 200000⟩, ⟨3000000, 200000⟩⟩ 1
        (syncSubscriptionFromDodo
          ⟨⟨150000, 10000⟩, ⟨3000000, 200000⟩, ⟨3000000, 200000⟩⟩
          ⟨"active", false, some 200, "pid_paid"⟩ "sub_9"
          ⟨UserPlan.FREE, 150000, 10000, some 400, none, 0, some 400, none,
            "free", false⟩ 100).1 100).map
        (fun p => p.1.inputTokensRemaining) = some 3000000) :=
  ⟨by refine ⟨rfl, rfl, rfl, by decide, rfl, rfl, by decide, rfl⟩,
    sync_allocates_when_entitled
      ⟨⟨150000, 10000⟩, ⟨3000000, 200000⟩, ⟨3000000, 200000⟩⟩
      ⟨"active", false, some 200, "pid_paid"⟩ "sub_9"
      ⟨UserPlan.FREE, 150000, 10000, some 400, none, 0, some 400, none,
        "free", false⟩ 100 200
      ⟨"subscription.active", some "sub_9", some "user@example.com"⟩ "wh_1"
      ⟨[],
        ⟨UserPlan.FREE, 150000, 10000, some 400, none, 0, some 400, none,
          "free", false⟩, 0⟩ rfl rfl rfl (by decide) rfl rfl (by decide) rfl⟩

/-- A delivery id already present in the dedup set causes handleWebhook to
skip the event as a no-op success, leaving the state untouched. -/
theorem handleWebhook_skip (cfg : TokensConfig) (fr : FetchResult)
    (event : WebhookEvent) (webhookId : String) (st : PaymentState)
    (now : Int) (h : webhookId ∈ st.processedWebhooks) :
    handleWebhook cfg fr event webhookId st now = (SvcResult.success, st) := by
  unfold handleWebhook
  rw [if_pos h]

/-- Claim C7: handleWebhook performs the sync side effect at most once per
delivery id within the dedup window.  A first delivery with a fresh id
syncs exactly once and marks the id; any second call with that id (any
event, any fetch outcome) returns success with the state untouched, so the
replay performs no second sync.  When handling fails (the awaited step
throws), the id is removed from the dedup set immediately and the reported
result is the 500 failure, so a provider retry with the same id invokes the
sync again. -/
theorem handleWebhook_at_most_once (cfg : TokensConfig)
    (sub : DodoSubscription) (event : WebhookEvent) (webhookId : String)
    (st : PaymentState) (now : Int) (sid em : String)
    (hs : event.subscription_id = some sid)
    (he : event.customerEmail = some em)
    (hfresh : webhookId ∉ st.processedWebhooks) :
    (handleWebhook cfg (FetchResult.ok sub) event webhookId st now).1 =
      SvcResult.success ∧
    (handleWebhook cfg (FetchResult.ok sub) event webhookId st
        now).2.syncCalls = st.syncCalls + 1 ∧
    webhookId ∈ (handleWebhook cfg (FetchResult.ok sub) event webhookId st
        now).2.processedWebhooks ∧
    (∀ fr2 : FetchResult, ∀ event2 : WebhookEvent,
      handleWebhook cfg fr2 event2 webhookId
          (handleWebhook cfg (FetchResult.ok sub) event webhookId st now).2
          now =
        (SvcResult.success,
          (handleWebhook cfg (FetchResult.ok sub) event webhookId st
            now).2)) ∧
    (handleWebhook cfg FetchResult.raise event webhookId st now).1 =
      SvcResult.failure "Unknown error" 500 ∧
    (handleWebhook cfg FetchResult.raise event webhookId st
        now).2.processedWebhooks = st.processedWebhooks ∧
    (handleWebhook cfg (FetchResult.ok sub) event webhookId
        (handleWebhook cfg FetchResult.raise event webhookId st now).2
        now).2.syncCalls =
      (handleWebhook cfg FetchResult.raise event webhookId st
        now).2.syncCalls + 1 := by
  have hok : handleWebhook cfg (FetchResult.ok sub) event webhookId st now =
      (SvcResult.success,
        { processedWebhooks := webhookId :: st.processedWebhooks
          user := (syncSubscriptionFromDodo cfg sub sid st.user now).1
          syncCalls := st.syncCalls + 1 }) := by
    simp [handleWebhook, hs, he, hfresh]
  have hraise : handleWebhook cfg FetchResult.raise event webhookId st now =
      (SvcResult.failure "Unknown error" 500,
        { processedWebhooks := st.processedWebhooks
          user := st.user
          syncCalls := st.syncCalls + 1 }) := by
    simp [handleWebhook, hs, he, hfresh, List.erase_cons_head]
  refine ⟨by simp [hok], by simp [hok], by simp [hok], ?_, by simp [hraise],
    by simp [hraise], ?_⟩
  · intro fr2 event2
    rw [hok]
    exact handleWebhook_skip cfg fr2 event2 webhookId _ now
      (List.mem_cons_self _ _)
  · rw [hraise]
    simp [handleWebhook, hs, he, hfresh]

/-- Witness for C7: a fresh delivery id against an empty dedup set, with an
event carrying both identity fields. -/
theorem handleWebhook_at_most_once_witness :
    ((⟨"subscription.active", some "sub_7", some "a@b.c"⟩ :
        WebhookEvent).subscription_id = some "sub_7" ∧
      (⟨"subscription.active", some "sub_7", some "a@b.c"⟩ :
          WebhookEvent).customerEmail = some "a@b.c" ∧
      "wh_7" ∉ (⟨[],
          ⟨UserPlan.FREE, 1, 1, none, none, 0, none, none, "free", false⟩,
          0⟩ : PaymentState).processedWebhooks) ∧
    ((handleWebhook ⟨⟨1, 1⟩, ⟨2, 2⟩, ⟨3, 3⟩⟩
        (FetchResult.ok ⟨"active", false, some 9, "p"⟩)
        ⟨"subscription.active", some "sub_7", some "a@b.c"⟩ "wh_7"
        ⟨[], ⟨UserPlan.FREE, 1, 1, none, none, 0, none, none, "free", false⟩,
          0⟩ 5).1 = SvcResult.success ∧
      (handleWebhook ⟨⟨1, 1⟩, ⟨2, 2⟩, ⟨3, 3⟩⟩
          (FetchResult.ok ⟨"active", false, some 9, "p"⟩)
          ⟨"subscription.active", some "sub_7", some "a@b.c"⟩ "wh_7"
          ⟨[], ⟨UserPlan.FREE, 1, 1, none, none, 0, none, none, "free",
            false⟩, 0⟩ 5).2.syncCalls =
        (⟨[], ⟨UserPlan.FREE, 1, 1, none, none, 0, none, none, "free",
          false⟩, 0⟩ : PaymentState).syncCalls + 1 ∧
      "wh_7" ∈ (handleWebhook ⟨⟨1, 1⟩, ⟨2, 2⟩, ⟨3, 3⟩⟩
          (FetchResult.ok ⟨"active", false, some 9, "p"⟩)
          ⟨"subscription.active", some "sub_7", some "a@b.c"⟩ "wh_7"
          ⟨[], ⟨UserPlan.FREE, 1, 1, none, none, 0, none, none, "free",
            false⟩, 0⟩ 5).2.processedWebhooks ∧
      (∀ fr2 : FetchResult, ∀ event2 : WebhookEvent,
        handleWebhook ⟨⟨1, 1⟩, ⟨2, 2⟩, ⟨3, 3⟩⟩ fr2 event2 "wh_7"
            (handleWebhook ⟨⟨1, 1⟩, ⟨2, 2⟩, ⟨3, 3⟩⟩
              (FetchResult.ok ⟨"active", false, some 9, "p"⟩)
              ⟨"subscription.active", some "sub_7", some "a@b.c"⟩ "wh_7"
              ⟨[], ⟨UserPlan.FREE, 1, 1, none, none, 0, none, none, "free",
                false⟩, 0⟩ 5).2 5 =
          (SvcResult.success,
            (handleWebhook ⟨⟨1, 1⟩, ⟨2, 2⟩, ⟨3, 3⟩⟩
              (FetchResult.ok ⟨"active", false, some 9, "p"⟩)
              ⟨"subscription.active", some "sub_7", some "a@b.c"⟩ "wh_7"
              ⟨[], ⟨UserPlan.FREE, 1, 1, none, none, 0, none, none, "free",
                false⟩, 0⟩ 5).2)) ∧
      (handleWebhook ⟨⟨1, 1⟩, ⟨2, 2⟩, ⟨3, 3⟩⟩ FetchResult.raise
          ⟨"subscription.active", some "sub_7", some "a@b.c"⟩ "wh_7"
          ⟨[], ⟨UserPlan.FREE, 1, 1, none, none, 0, none, none, "free",
            false⟩, 0⟩ 5).1 = SvcResult.failure "Unknown error" 500 ∧
      (handleWebhook ⟨⟨1, 1⟩, ⟨2, 2⟩, ⟨3, 3⟩⟩ FetchResult.raise
          ⟨"subscription.active", some "sub_7", some "a@b.c"⟩ "wh_7"
          ⟨[], ⟨UserPlan.FREE, 1, 1, none, none, 0, none, none, "free",
            false⟩, 0⟩ 5).2.processedWebhooks =
        (⟨[], ⟨UserPlan.FREE, 1, 1, none, none, 0, none, none, "free",
          false⟩, 0⟩ : PaymentState).processedWebhooks ∧
      (handleWebhook ⟨⟨1, 1⟩, ⟨2, 2⟩, ⟨3, 3⟩⟩
          (FetchResult.ok ⟨"active", false, some 9, "p"⟩)
          ⟨"subscription.active", some "sub_7", some "a@b.c"⟩ "wh_7"
          (handleWebhook ⟨⟨1, 1⟩, ⟨2, 2⟩, ⟨3, 3⟩⟩ FetchResult.raise
            ⟨"subscription.active", some "sub_7", some "a@b.c"⟩ "wh_7"
            ⟨[], ⟨UserPlan.FREE, 1, 1, none, none, 0, none, none, "free",
              false⟩, 0⟩ 5).2 5).2.syncCalls =
        (handleWebhook ⟨⟨1, 1⟩, ⟨2, 2⟩, ⟨3, 3⟩⟩ FetchResult.raise
          ⟨"subscription.active", some "sub_7", some "a@b.c"⟩ "wh_7"
          ⟨[], ⟨UserPlan.FREE, 1, 1, none, none, 0, none, none, "free",
            false⟩, 0⟩ 5).2.syncCalls + 1) :=
  ⟨⟨rfl, rfl, by decide⟩,
    handleWebhook_at_most_once ⟨⟨1, 1⟩, ⟨2, 2⟩, ⟨3, 3⟩⟩
      ⟨"active", false, some 9, "p"⟩
      ⟨"subscription.active", some "sub_7", some "a@b.c"⟩ "wh_7"
      ⟨[], ⟨UserPlan.FREE, 1, 1, none, none, 0, none, none, "free", false⟩,
        0⟩ 5 "sub_7" "a@b.c" rfl rfl (by decide)⟩

/-- Claim C10: for an event whose payload lacks a subscription id or a
customer email, handleWebhook returns success without invoking sync, but
only after adding the delivery id to the dedup set, where it remains (the
deferred cleanup fires only after the dedup window); any later delivery
reusing that id within the window is skipped as already processed even
though no sync ever ran for it. -/
theorem handleWebhook_missing_identity (cfg : TokensConfig)
    (fr : FetchResult) (event : WebhookEvent) (webhookId : String)
    (st : PaymentState) (now : Int)
    (hmiss : event.subscription_id = none ∨ event.customerEmail = none)
    (hfresh : webhookId ∉ st.processedWebhooks) :
    (handleWebhook cfg fr event webhookId st now).1 = SvcResult.success ∧
    (handleWebhook cfg fr event webhookId st now).2.syncCalls =
      st.syncCalls ∧
    (handleWebhook cfg fr event webhookId st now).2.user = st.user ∧
    (handleWebhook cfg fr event webhookId st now).2.processedWebhooks =
      webhookId :: st.processedWebhooks ∧
    (∀ fr2 : FetchResult, ∀ event2 : WebhookEvent,
      handleWebhook cfg fr2 event2 webhookId
          (handleWebhook cfg fr event webhookId st now).2 now =
        (SvcResult.success,
          (handleWebhook cfg fr event webhookId st now).2)) := by
  have hrun : handleWebhook cfg fr event webhookId st now =
      (SvcResult.success,
        { st with processedWebhooks := webhookId :: st.processedWebhooks }) := by
    unfold handleWebhook
    rw [if_neg hfresh]
    rcases hmiss with h | h
    · rw [h]
    · rw [h]
      cases event.subscription_id <;> rfl
  refine ⟨by simp [hrun], by simp [hrun], by simp [hrun], by simp [hrun], ?_⟩
  intro fr2 event2
  rw [hrun]
  exact handleWebhook_skip cfg fr2 event2 webhookId _ now
    (List.mem_cons_self _ _)

/-- Witness for C10: an event with a subscription id but no customer
email, delivered twice with the same fresh id. -/
theorem handleWebhook_missing_identity_witness :
    (((⟨"payment.succeeded", some "sub_3", none⟩ :
          WebhookEvent).subscription_id = none ∨
      (⟨"payment.succeeded", some "sub_3", none⟩ :
          WebhookEvent).customerEmail = none) ∧
      "wh_3" ∉ (⟨["wh_other"],
          ⟨UserPlan.FREE, 1, 1, none, none, 0, none, none, "free", false⟩,
          0⟩ : PaymentState).processedWebhooks) ∧
    ((handleWebhook ⟨⟨1, 1⟩, ⟨2, 2⟩, ⟨3, 3⟩⟩ FetchResult.fail
        ⟨"payment.succeeded", some "sub_3", none⟩ "wh_3"
        ⟨["wh_other"], ⟨UserPlan.FREE, 1, 1, none, none, 0, none, none,
          "free", false⟩, 0⟩ 5).1 = SvcResult.success ∧
      (handleWebhook ⟨⟨1, 1⟩, ⟨2, 2⟩, ⟨3, 3⟩⟩ FetchResult.fail
          ⟨"payment.succeeded", some "sub_3", none⟩ "wh_3"
          ⟨["wh_other"], ⟨UserPlan.FREE, 1, 1, none, none, 0, none, none,
            "free", false⟩, 0⟩ 5).2.syncCalls =
        (⟨["wh_other"], ⟨UserPlan.FREE, 1, 1, none, none, 0, none, none,
          "free", false⟩, 0⟩ : PaymentState).syncCalls ∧
      (handleWebhook ⟨⟨1, 1⟩, ⟨2, 2⟩, ⟨3, 3⟩⟩ FetchResult.fail
          ⟨"payment.succeeded", some "sub_3", none⟩ "wh_3"
          ⟨["wh_other"], ⟨UserPlan.FREE, 1, 1, none, none, 0, none, none,
            "free", false⟩, 0⟩ 5).2.user =
        (⟨["wh_other"], ⟨UserPlan.FREE, 1, 1, none, none, 0, none, none,
          "free", false⟩, 0⟩ : PaymentState).user ∧
      (handleWebhook ⟨⟨1, 1⟩, ⟨2, 2⟩, ⟨3, 3⟩⟩ FetchResult.fail
          ⟨"payment.succeeded", some "sub_3", none⟩ "wh_3"
          ⟨["wh_other"], ⟨UserPlan.FREE, 1, 1, none, none, 0, none, none,
            "free", false⟩, 0⟩ 5).2.processedWebhooks =
        "wh_3" :: (⟨["wh_other"], ⟨UserPlan.FREE, 1, 1, none, none, 0, none,
          none, "free", false⟩, 0⟩ : PaymentState).processedWebhooks ∧
      (∀ fr2 : FetchResult, ∀ event2 : WebhookEvent,
        handleWebhook ⟨⟨1, 1⟩, ⟨2, 2⟩, ⟨3, 3⟩⟩ fr2 event2 "wh_3"
            (handleWebhook ⟨⟨1, 1⟩, ⟨2, 2⟩, ⟨3, 3⟩⟩ FetchResult.fail
              ⟨"payment.succeeded", some "sub_3", none⟩ "wh_3"
              ⟨["wh_other"], ⟨UserPlan.FREE, 1, 1, none, none, 0, none,
                none, "free", false⟩, 0⟩ 5).2 5 =
          (SvcResult.success,
            (handleWebhook ⟨⟨1, 1⟩, ⟨2, 2⟩, ⟨3, 3⟩⟩ FetchResult.fail
              ⟨"payment.succeeded", some "sub_3", none⟩ "wh_3"
              ⟨["wh_other"], ⟨UserPlan.FREE, 1, 1, none, none, 0, none,
                none, "free", false⟩, 0⟩ 5).2))) :=
  ⟨⟨Or.inr rfl, by decide⟩,
    handleWebhook_missing_identity ⟨⟨1, 1⟩, ⟨2, 2⟩, ⟨3, 3⟩⟩ FetchResult.fail
      ⟨"payment.succeeded", some "sub_3", none⟩ "wh_3"
      ⟨["wh_other"], ⟨UserPlan.FREE, 1, 1, none, none, 0, none, none,
        "free", false⟩, 0⟩ 5 (Or.inr rfl) (by decide)⟩

end Knugget
